import Mathlib

/-!
Shallow embedding of `src/meme_generator.py` (a PyQt meme-captioning
application).  The image-drawing library is modelled symbolically: an image
is its pixel dimensions plus the ordered list of text-draw operations burned
onto the loaded pixels, and the library's `textbbox` measurement is an
oracle (`FontMetrics`).  GUI widgets, dialogs, logging and message boxes are
out of scope; each Qt event handler becomes a state transformer on the
fields of `MyForm` that the handlers read and write.
-/

namespace MemeGen

/-- The four numeric render parameters held by `MyForm`
(`current_font_size`, `current_padding`, `current_top_left_margin`,
`current_bottom_padding`). -/
structure RenderParams where
  fontSize : Nat
  padding : Nat
  topLeftMargin : Nat
  bottomPadding : Nat
deriving DecidableEq, Repr

/-- A text-draw operation, as issued by `ImageDraw.Draw(...).text(...)`:
position, the string, the font size it is set in, and the stroke width. -/
inductive DrawOp where
  | text (x y : Int) (s : String) (fontSize : Nat) (strokeWidth : Nat)
deriving DecidableEq, Repr

/-- A PIL image: its dimensions plus the ordered text-draw operations
composited over the loaded pixel data.  A freshly opened file has no
operations. -/
structure PILImage where
  width : Nat
  height : Nat
  ops : List DrawOp
deriving DecidableEq, Repr

/-- `Image.open(path).convert("RGBA")`: a pristine image, no overlays. -/
def openedImage (w h : Nat) : PILImage := ⟨w, h, []⟩

/-- `draw.text((x, y), s, fill="white", font=font, stroke_width=sw,
stroke_fill="black")` appends one draw operation to the image. -/
def drawText (img : PILImage) (x y : Int) (s : String) (fs sw : Nat) : PILImage :=
  { img with ops := img.ops ++ [DrawOp.text x y s fs sw] }

/-- Oracle for `draw.textbbox((0, 0), text, font=font)`: the top (`bbox[1]`)
and bottom (`bbox[3]`) coordinates of the rendered bounding box of `text`
at a given font size. -/
structure FontMetrics where
  bboxTop : String → Nat → Int
  bboxBottom : String → Nat → Int

/-- `text_height = bbox[3] - bbox[1]` in `update_canvas`. -/
def textHeight (m : FontMetrics) (s : String) (fontSize : Nat) : Int :=
  m.bboxBottom s fontSize - m.bboxTop s fontSize

/-- The compositing core of `MyForm.update_canvas` (lines 420-433): copy the
base, draw the top text at `(leftMargin, padding)` when non-empty, then the
bottom text at the computed clamped vertical position when non-empty. -/
def render (m : FontMetrics) (base : PILImage) (top bottom : String)
    (p : RenderParams) : PILImage :=
  let i1 := if top ≠ "" then
      drawText base p.topLeftMargin p.padding top p.fontSize 2
    else base
  if bottom ≠ "" then
    let th := textHeight m bottom p.fontSize
    let y0 : Int := (base.height : Int) - th - (p.bottomPadding : Int)
    let y : Int := if y0 < 0 then max 10 ((base.height : Int) - th) else y0
    drawText i1 p.topLeftMargin y bottom p.fontSize 2
  else i1

/-- The fallback caption list returned by `load_captions` when the captions
file is missing or yields no captions. -/
def defaultCaptions : List String :=
  ["LOL SO TRUE!", "EPIC FAIL!", "TOO FUNNY!", "MEME LORD!",
   "VIRAL VIBES!", "SAVAGE MODE!", "YOLO SWAG!", "BIG MOOD!",
   "NO CHILL!", "LMAO FOREVER!", "SPICY MEME!", "BESTIE ENERGY!",
   "ROASTED!", "ICONIC AF!", "SLAY QUEEN!"]

/-- `[row[0] for row in reader if row]`: first field of every non-empty
CSV row, in row order. -/
def firstColumns (rows : List (List String)) : List String :=
  rows.filterMap List.head?

/-- `MyForm.load_captions`.  The captions file is modelled as
`Option (List (List String))`: `none` when `os.path.exists` is false, and
otherwise the parsed CSV rows.  Returns the caption list together with a
flag recording whether the fallback warning was signalled. -/
def load_captions (file : Option (List (List String))) : List String × Bool :=
  match file with
  | none => (defaultCaptions, true)
  | some rows =>
    let captions := firstColumns rows
    if captions = [] then (defaultCaptions, true) else (captions, false)

/-- The mutable fields of `MyForm` that the event handlers read and write:
the current (rendered) image, the retained original, the two caption text
boxes, the four slider-backed parameters, and the caption catalog. -/
structure AppState where
  image : Option PILImage
  original_image : Option PILImage
  topText : String
  bottomText : String
  fontSize : Nat
  padding : Nat
  topLeftMargin : Nat
  bottomPadding : Nat
  captions : List String
deriving DecidableEq, Repr

/-- The `RenderParameters` record carried by a state. -/
def paramsOf (s : AppState) : RenderParams :=
  ⟨s.fontSize, s.padding, s.topLeftMargin, s.bottomPadding⟩

/-- `MyForm.update_canvas`: when a current image exists, re-composite from a
fresh copy of `original_image` and reassign the result to `image`; when it
does not, only the display canvas is cleared and the state is unchanged.
(The `image` present / `original_image` absent combination never occurs in
the program, since the two are always assigned together; it is mapped to
the identity.) -/
def update_canvas (m : FontMetrics) (s : AppState) : AppState :=
  match s.image with
  | none => s
  | some _ =>
    match s.original_image with
    | none => s
    | some o =>
      { s with image := some (render m o s.topText s.bottomText (paramsOf s)) }

/-- `MyForm.load_image`.  `fileName` is the dialog result (`none` when the
user cancels), `openResult` the outcome of `Image.open(...).convert("RGBA")`
(`none` when it raises); a successful open yields the pristine image of the
given dimensions.  The returned flag records whether the error box was
shown. -/
def load_image (m : FontMetrics) (s : AppState) (fileName : Option String)
    (openResult : Option (Nat × Nat)) : AppState × Bool :=
  match fileName with
  | none => (s, false)
  | some _ =>
    match openResult with
    | some (w, h) =>
      (update_canvas m { s with image := some (openedImage w h),
                                original_image := some (openedImage w h) }, false)
    | none => ({ s with image := none, original_image := none }, true)

/-- Python's `str.endswith(suffix)`, case-sensitive, on character lists. -/
def endsWithStr (s suffix : String) : Bool :=
  suffix.data.isSuffixOf s.data

/-- `f.endswith((".jpg", ".png"))`, case-sensitive. -/
def matchExt (f : String) : Bool :=
  endsWithStr f ".jpg" || endsWithStr f ".png"

/-- The file `random.choice(self.image_files)` picks, with the random draw
modelled as an oracle index `i` reduced modulo the list length. -/
def selectedFile (listing : List String) (i : Nat) : String :=
  let files := listing.filter matchExt
  files.getD (i % files.length) ""

/-- `MyForm.random_gacha`.  `dirExists` models `os.path.exists` on the
images folder, `listing` the `os.listdir` result, `fileSys` what
`Image.open` yields on each file, and `i`, `j` the two independent random
draws (over the matching files and over the caption catalog).  The flag
records whether a warning or error box was shown. -/
def random_gacha (m : FontMetrics) (fileSys : String → Option (Nat × Nat))
    (s : AppState) (dirExists : Bool) (listing : List String)
    (i j : Nat) : AppState × Bool :=
  if dirExists = false then (s, true)
  else
    let files := listing.filter matchExt
    if files = [] then (s, true)
    else
      match fileSys (selectedFile listing i) with
      | some (w, h) =>
        let cap := s.captions.getD (j % s.captions.length) ""
        (update_canvas m { s with image := some (openedImage w h),
                                  original_image := some (openedImage w h),
                                  topText := cap, bottomText := "" }, false)
      | none => ({ s with image := none, original_image := none }, true)

/-- `MyForm.clear_canvas`: clears both text boxes and drops both image
references.  It does not touch the four slider parameters. -/
def clear_canvas (s : AppState) : AppState :=
  { s with topText := "", bottomText := "", image := none, original_image := none }

/-- `MyForm.save_image`: writes the current image to disk; the state is
unchanged, and a warning is shown when there is no image. -/
def save_image (s : AppState) : AppState × Bool :=
  (s, s.image.isNone)

/-- Python's `str.strip()` whitespace class, `Py_UNICODE_ISSPACE`: the
ASCII whitespace and separator controls 0x09-0x0D, 0x1C-0x1F and space,
next-line 0x85, no-break space 0xA0, and the Unicode space separators
(Ogham space mark, the 0x2000-0x200A range, line and paragraph separators,
narrow no-break space, medium mathematical space, ideographic space). -/
def isPySpace (c : Char) : Bool :=
  let n := c.toNat
  (9 ≤ n && n ≤ 13) || (28 ≤ n && n ≤ 31) || n = 32 || n = 133 || n = 160 ||
  n = 0x1680 || (0x2000 ≤ n && n ≤ 0x200A) || n = 0x2028 || n = 0x2029 ||
  n = 0x202F || n = 0x205F || n = 0x3000

/-- Python's `text.strip()`. -/
def pyStrip (s : String) : String :=
  String.mk (((s.data.dropWhile isPySpace).reverse.dropWhile isPySpace).reverse)

/-- The fixed promotional string substituted for a blank caption in
`share_to_x`. -/
def defaultShareText : String := "Check out my meme! #MemeGenerator #MadeByGrok"

/-- Lines 371-373 of `share_to_x`: the text actually posted. -/
def shareText (topText : String) : String :=
  if pyStrip topText = "" then defaultShareText else topText

/-- `MyForm.share_to_x` as far as session state and the posted text go: no
state field changes; the tweet text is `shareText` of the top text box when
an image exists and the user confirms the dialog, else nothing is posted. -/
def share_to_x (s : AppState) (confirmed : Bool) : AppState × Option String :=
  match s.image with
  | none => (s, none)
  | some _ => if confirmed then (s, some (shareText s.topText)) else (s, none)

/-- `MyForm.update_font_size`: store the slider value, re-render if an
image is loaded. -/
def update_font_size (m : FontMetrics) (v : Nat) (s : AppState) : AppState :=
  let s' := { s with fontSize := v }
  match s'.image with
  | some _ => update_canvas m s'
  | none => s'

/-- `MyForm.update_padding`. -/
def update_padding (m : FontMetrics) (v : Nat) (s : AppState) : AppState :=
  let s' := { s with padding := v }
  match s'.image with
  | some _ => update_canvas m s'
  | none => s'

/-- `MyForm.update_top_left_margin`. -/
def update_top_left_margin (m : FontMetrics) (v : Nat) (s : AppState) : AppState :=
  let s' := { s with topLeftMargin := v }
  match s'.image with
  | some _ => update_canvas m s'
  | none => s'

/-- `MyForm.update_bottom_padding`. -/
def update_bottom_padding (m : FontMetrics) (v : Nat) (s : AppState) : AppState :=
  let s' := { s with bottomPadding := v }
  match s'.image with
  | some _ => update_canvas m s'
  | none => s'

/-- One user-triggered event handler, with its external inputs (dialog
results, filesystem answers, random draws) packaged as oracle data. -/
inductive Op where
  | loadImage (fileName : Option String) (openResult : Option (Nat × Nat))
  | randomGacha (fileSys : String → Option (Nat × Nat)) (dirExists : Bool)
      (listing : List String) (i j : Nat)
  | clearCanvas
  | saveImage
  | shareToX (confirmed : Bool)
  | updateFontSize (v : Nat)
  | updatePadding (v : Nat)
  | updateTopLeftMargin (v : Nat)
  | updateBottomPadding (v : Nat)
  | editTopText (t : String)
  | editBottomText (t : String)

/-- Dispatch an event handler on the state (each text edit fires the
`textChanged`-connected `update_canvas`). -/
def applyOp (m : FontMetrics) (op : Op) (s : AppState) : AppState :=
  match op with
  | .loadImage fn r => (load_image m s fn r).1
  | .randomGacha fileSys d l i j => (random_gacha m fileSys s d l i j).1
  | .clearCanvas => clear_canvas s
  | .saveImage => (save_image s).1
  | .shareToX c => (share_to_x s c).1
  | .updateFontSize v => update_font_size m v s
  | .updatePadding v => update_padding m v s
  | .updateTopLeftMargin v => update_top_left_margin m v s
  | .updateBottomPadding v => update_bottom_padding m v s
  | .editTopText t => update_canvas m { s with topText := t }
  | .editBottomText t => update_canvas m { s with bottomText := t }

/-- The state `MyForm.__init__` builds: no image, empty text boxes, slider
defaults 75 / 20 / 10 / 20, captions from `load_captions`. -/
def initState (captionsFile : Option (List (List String))) : AppState :=
  { image := none, original_image := none, topText := "", bottomText := "",
    fontSize := 75, padding := 20, topLeftMargin := 10, bottomPadding := 20,
    captions := (load_captions captionsFile).1 }

/-- States reachable from startup by any sequence of event handlers. -/
inductive Reachable (captionsFile : Option (List (List String))) : AppState → Prop where
  | start : Reachable captionsFile (initState captionsFile)
  | next (m : FontMetrics) (op : Op) (s : AppState) :
      Reachable captionsFile s → Reachable captionsFile (applyOp m op s)

/-- The event handlers that write a `RenderParameters` field. -/
def isParamAdjust : Op → Bool
  | .updateFontSize _ | .updatePadding _
  | .updateTopLeftMargin _ | .updateBottomPadding _ => true
  | _ => false

/-- The event handlers that may write a `CaptionText` field. -/
def isTextMutating : Op → Bool
  | .clearCanvas | .randomGacha _ _ _ _ _
  | .editTopText _ | .editBottomText _ => true
  | _ => false

/-- An original image with no overlay operations yet. -/
def pristineOriginal (s : AppState) : Prop :=
  ∀ o : PILImage, s.original_image = some o → o.ops = []

/-- Fixed metrics used as a concrete oracle in witnesses: every bounding
box is 60 pixels tall, matching the spec's worked scenario. -/
def flatMetrics : FontMetrics := ⟨fun _ _ => 0, fun _ _ => 60⟩

/-- A loaded session state whose top caption is whitespace-only (a space,
a tab and a no-break space, all stripped by `str.strip()`). -/
def blankCaptionState : AppState :=
  { initState none with image := some (openedImage 4 3),
                        original_image := some (openedImage 4 3),
                        topText := " \t\u00A0" }

/-- A loaded session state, used as the prior state of a failing load. -/
def priorState : AppState :=
  { initState none with image := some (openedImage 4 3),
                        original_image := some (openedImage 4 3) }

/-- A session state whose font-size slider has been moved off its default. -/
def adjustedState : AppState := { initState none with fontSize := 50 }

/-- The startup state after one successful image load. -/
def loadState : AppState :=
  applyOp flatMetrics (Op.loadImage (some "a.png") (some (4, 3))) (initState none)

/-- A loaded state whose current image already carries a drawn overlay. -/
def compositedState : AppState :=
  { initState none with
      image := some ⟨4, 3, [DrawOp.text 0 0 "OLD" 9 2]⟩,
      original_image := some (openedImage 4 3),
      topText := "HI", bottomText := "YO" }

/-- The same session data as `compositedState` but with a different current
image. -/
def recompositedState : AppState :=
  { compositedState with image := some (openedImage 4 3) }

/-! ## Helper lemmas -/

/-- `update_canvas` only rewrites the `image` field: text boxes, parameters,
the retained original and the caption catalog are untouched. -/
theorem update_canvas_frame (m : FontMetrics) (s : AppState) :
    (update_canvas m s).topText = s.topText ∧
    (update_canvas m s).bottomText = s.bottomText ∧
    paramsOf (update_canvas m s) = paramsOf s ∧
    (update_canvas m s).original_image = s.original_image ∧
    (update_canvas m s).captions = s.captions := by
  unfold update_canvas
  split
  · exact ⟨rfl, rfl, rfl, rfl, rfl⟩
  · split
    · exact ⟨rfl, rfl, rfl, rfl, rfl⟩
    · exact ⟨rfl, rfl, rfl, rfl, rfl⟩

/-- `share_to_x` never changes the session state. -/
theorem share_to_x_state (s : AppState) (c : Bool) : (share_to_x s c).1 = s := by
  unfold share_to_x
  split
  · rfl
  · split <;> rfl

/-- An element on which the predicate fails survives `dropWhile`. -/
theorem mem_dropWhile_of_not {α : Type} (p : α → Bool) (l : List α) (c : α)
    (hc : c ∈ l) (hpc : ¬ p c) : c ∈ l.dropWhile p := by
  induction l with
  | nil => cases hc
  | cons a l ih =>
    rw [List.dropWhile_cons]
    by_cases hpa : p a
    · rw [if_pos hpa]
      rcases List.mem_cons.mp hc with rfl | h
      · exact absurd hpa hpc
      · exact ih h
    · rw [if_neg hpa]
      exact hc

/-- `text.strip()` is empty exactly when every character is whitespace. -/
theorem pyStrip_eq_empty_iff (s : String) :
    pyStrip s = "" ↔ ∀ c ∈ s.data, isPySpace c := by
  unfold pyStrip
  constructor
  · intro h c hc
    have hl : ((s.data.dropWhile isPySpace).reverse.dropWhile isPySpace).reverse = [] := by
      simpa using congrArg String.data h
    rw [List.reverse_eq_nil_iff, List.dropWhile_eq_nil_iff] at hl
    by_contra hcn
    exact hcn (hl c (List.mem_reverse.mpr (mem_dropWhile_of_not isPySpace s.data c hc hcn)))
  · intro h
    have h1 : s.data.dropWhile isPySpace = [] := List.dropWhile_eq_nil_iff.mpr h
    rw [h1]
    rfl

/-- `firstColumns` as a right fold: keep the head of each non-empty row. -/
theorem firstColumns_eq_foldr (rows : List (List String)) :
    firstColumns rows =
      rows.foldr (fun r acc => match r with | [] => acc | c :: _ => c :: acc) [] := by
  induction rows with
  | nil => rfl
  | cons r rs ih =>
    cases r with
    | nil => simpa [firstColumns, List.filterMap_cons] using ih
    | cons c cs => simpa [firstColumns, List.filterMap_cons] using ih

/-- `load_image` leaves caption text, render parameters and the caption
catalog unchanged in every branch. -/
theorem load_image_frame (m : FontMetrics) (s : AppState)
    (fn : Option String) (r : Option (Nat × Nat)) :
    paramsOf (load_image m s fn r).1 = paramsOf s ∧
    (load_image m s fn r).1.topText = s.topText ∧
    (load_image m s fn r).1.bottomText = s.bottomText ∧
    (load_image m s fn r).1.captions = s.captions := by
  unfold load_image
  split
  · exact ⟨rfl, rfl, rfl, rfl⟩
  · split
    · exact ⟨(update_canvas_frame m _).2.2.1, (update_canvas_frame m _).1,
             (update_canvas_frame m _).2.1, (update_canvas_frame m _).2.2.2.2⟩
    · exact ⟨rfl, rfl, rfl, rfl⟩

/-- `random_gacha` leaves the render parameters and the caption catalog
unchanged in every branch. -/
theorem random_gacha_frame (m : FontMetrics)
    (fileSys : String → Option (Nat × Nat)) (s : AppState) (d : Bool)
    (l : List String) (i j : Nat) :
    paramsOf (random_gacha m fileSys s d l i j).1 = paramsOf s ∧
    (random_gacha m fileSys s d l i j).1.captions = s.captions := by
  unfold random_gacha
  split
  · exact ⟨rfl, rfl⟩
  · dsimp only
    split <;> try split
    all_goals exact ⟨rfl, rfl⟩

/-- Each slider handler leaves both caption text boxes unchanged. -/
theorem slider_texts_frame (m : FontMetrics) (v : Nat) (s : AppState) :
    ((update_font_size m v s).topText = s.topText ∧
     (update_font_size m v s).bottomText = s.bottomText) ∧
    ((update_padding m v s).topText = s.topText ∧
     (update_padding m v s).bottomText = s.bottomText) ∧
    ((update_top_left_margin m v s).topText = s.topText ∧
     (update_top_left_margin m v s).bottomText = s.bottomText) ∧
    ((update_bottom_padding m v s).topText = s.topText ∧
     (update_bottom_padding m v s).bottomText = s.bottomText) := by
  refine ⟨?_, ?_, ?_, ?_⟩ <;>
    [unfold update_font_size; unfold update_padding;
     unfold update_top_left_margin; unfold update_bottom_padding] <;>
    dsimp only <;> split <;>
    first
    | exact ⟨rfl, rfl⟩
    | exact ⟨(update_canvas_frame m _).1, (update_canvas_frame m _).2.1⟩

/-! ## Claim theorems -/

/-- C1: for every render of a non-empty bottom caption, the bottom draw
operation's vertical position equals `imageHeight - textHeight -
bottomPadding`; whenever that value is negative, the position is instead
`max 10 (imageHeight - textHeight)`. -/
theorem bottom_caption_y_position (m : FontMetrics) (base : PILImage)
    (top bottom : String) (p : RenderParams) (hb : bottom ≠ "") :
    ∃ y : Int,
      (render m base top bottom p).ops.getLast? =
        some (DrawOp.text p.topLeftMargin y bottom p.fontSize 2) ∧
      (0 ≤ (base.height : Int) - textHeight m bottom p.fontSize - (p.bottomPadding : Int) →
        y = (base.height : Int) - textHeight m bottom p.fontSize - (p.bottomPadding : Int)) ∧
      ((base.height : Int) - textHeight m bottom p.fontSize - (p.bottomPadding : Int) < 0 →
        y = max 10 ((base.height : Int) - textHeight m bottom p.fontSize)) := by
  refine ⟨if (base.height : Int) - textHeight m bottom p.fontSize - (p.bottomPadding : Int) < 0
          then max 10 ((base.height : Int) - textHeight m bottom p.fontSize)
          else (base.height : Int) - textHeight m bottom p.fontSize - (p.bottomPadding : Int),
          ?_, fun h0 => by rw [if_neg (not_lt.mpr h0)], fun h0 => by rw [if_pos h0]⟩
  simp only [render, drawText, if_pos hb]
  exact List.getLast?_concat _

/-- Witness for C1: the spec's scenario, a 400x300 image with
"EPIC FAIL!" at font size 75, bounding-box height 60, padding 20. -/
theorem bottom_caption_y_position_witness :
    ∃ y : Int,
      (render flatMetrics (openedImage 400 300) "" "EPIC FAIL!"
          ⟨75, 20, 10, 20⟩).ops.getLast? =
        some (DrawOp.text 10 y "EPIC FAIL!" 75 2) ∧
      (0 ≤ ((openedImage 400 300).height : Int) -
          textHeight flatMetrics "EPIC FAIL!" 75 - (20 : Int) →
        y = ((openedImage 400 300).height : Int) -
          textHeight flatMetrics "EPIC FAIL!" 75 - (20 : Int)) ∧
      (((openedImage 400 300).height : Int) -
          textHeight flatMetrics "EPIC FAIL!" 75 - (20 : Int) < 0 →
        y = max 10 (((openedImage 400 300).height : Int) -
          textHeight flatMetrics "EPIC FAIL!" 75)) :=
  bottom_caption_y_position flatMetrics (openedImage 400 300) "" "EPIC FAIL!"
    ⟨75, 20, 10, 20⟩ (by decide)

/-- C4: loading captions from a missing file, or from a file yielding zero
captions, returns exactly the fixed 15-item fallback list and signals the
recoverable warning. -/
theorem load_captions_fallback :
    load_captions none = (defaultCaptions, true) ∧
    (∀ rows : List (List String), firstColumns rows = [] →
      load_captions (some rows) = (defaultCaptions, true)) ∧
    defaultCaptions.length = 15 := by
  refine ⟨rfl, fun rows h => ?_, rfl⟩
  simp [load_captions, h]

/-- Witness for C4: a file of two blank lines yields zero captions and the
fallback is returned. -/
theorem load_captions_fallback_witness :
    load_captions (some [[], []]) = (defaultCaptions, true) :=
  load_captions_fallback.2.1 [[], []] rfl

/-- Counterexample to C7: a readable file whose single row is `,b` loads
as the one-element caption list `[""]`, so not every returned string is a
non-empty first field. -/
theorem load_captions_empty_first_field :
    (load_captions (some [["", "b"]])).1 = [""] ∧
    ¬ (∀ c ∈ (load_captions (some [["", "b"]])).1, c ≠ "") := by
  refine ⟨rfl, fun h => ?_⟩
  exact h "" (by simp [load_captions, firstColumns]) rfl

/-- C7 amended: for every readable caption file with at least one non-empty
row, load returns the first field of each non-empty row (which may itself
be the empty string), in row order. -/
theorem load_captions_first_columns (rows : List (List String))
    (h : firstColumns rows ≠ []) :
    (load_captions (some rows)).1 =
      rows.foldr (fun r acc => match r with | [] => acc | c :: _ => c :: acc) [] ∧
    ∀ c ∈ (load_captions (some rows)).1, ∃ r ∈ rows, r.head? = some c := by
  have hl : load_captions (some rows) = (firstColumns rows, false) := by
    simp [load_captions, h]
  rw [hl]
  refine ⟨firstColumns_eq_foldr rows, fun c hc => ?_⟩
  simp only [firstColumns, List.mem_filterMap] at hc
  exact hc

/-- Witness for C7's amended claim at a concrete three-row file. -/
theorem load_captions_first_columns_witness :
    (load_captions (some [["a", "b"], [], ["c"]])).1 =
      [["a", "b"], [], ["c"]].foldr
        (fun r acc => match r with | [] => acc | c :: _ => c :: acc) [] ∧
    ∀ c ∈ (load_captions (some [["a", "b"], [], ["c"]])).1,
      ∃ r ∈ [["a", "b"], [], ["c"]], r.head? = some c :=
  load_captions_first_columns [["a", "b"], [], ["c"]] (by decide)

/-- C8: a share request posts the fixed default promotional string verbatim
when the entered caption is blank or whitespace-only, and posts the user's
caption unchanged otherwise. -/
theorem share_text_substitution (s : AppState) (img : PILImage)
    (hi : s.image = some img) :
    ((∀ c ∈ s.topText.data, isPySpace c) →
      (share_to_x s true).2 = some defaultShareText) ∧
    ((∃ c ∈ s.topText.data, ¬ isPySpace c) →
      (share_to_x s true).2 = some s.topText) := by
  constructor
  · intro h
    simp [share_to_x, hi, shareText, (pyStrip_eq_empty_iff s.topText).mpr h]
  · rintro ⟨c, hc, hcn⟩
    have hne : pyStrip s.topText ≠ "" := fun he =>
      hcn ((pyStrip_eq_empty_iff s.topText).mp he c hc)
    simp [share_to_x, hi, shareText, hne]

/-- Witness for C8: sharing with a caption of a space, a tab and a
no-break space posts the default promotional string. -/
theorem share_text_substitution_witness :
    (share_to_x blankCaptionState true).2 = some defaultShareText :=
  (share_text_substitution blankCaptionState (openedImage 4 3) rfl).1 (by decide)

/-- Counterexample to C5: a failing image load does not preserve the prior
base image — it resets both image references to nothing (the failure is
reported). -/
theorem load_failure_not_preserving :
    (load_image flatMetrics priorState (some "bad.png") none).1.image ≠
      priorState.image ∧
    (load_image flatMetrics priorState (some "bad.png") none).2 = true := by
  refine ⟨fun h => ?_, rfl⟩
  simp [load_image, priorState] at h

/-- C5 amended: on a corrupt or unreadable selected file, the load reports
the failure, drops both the current and the original image to none, and
leaves caption text and render parameters unchanged. -/
theorem load_failure_resets (m : FontMetrics) (s : AppState) (name : String) :
    (load_image m s (some name) none).1.image = none ∧
    (load_image m s (some name) none).1.original_image = none ∧
    (load_image m s (some name) none).1.topText = s.topText ∧
    (load_image m s (some name) none).1.bottomText = s.bottomText ∧
    paramsOf (load_image m s (some name) none).1 = paramsOf s ∧
    (load_image m s (some name) none).2 = true := by
  exact ⟨rfl, rfl, rfl, rfl, rfl, rfl⟩

/-- Counterexample to C9: `clear_canvas` does not reset the render
parameters — a font size moved to 50 stays 50 after clear, while the
session default is 75. -/
theorem clear_canvas_no_param_reset :
    adjustedState.fontSize = 50 ∧
    (clear_canvas adjustedState).fontSize = 50 ∧
    (initState none).fontSize = 75 ∧
    (clear_canvas adjustedState).fontSize ≠ (initState none).fontSize := by
  exact ⟨rfl, rfl, rfl, by decide⟩

/-- C9 amended: the render parameters persist unchanged across every
operation other than their own slider adjustments — including clear, which
does not reset them; caption text persists across every operation other
than its own edits, the clear operation (which empties both fields), and
random selection (which may overwrite them). -/
theorem params_and_text_frame (m : FontMetrics) (op : Op) (s : AppState) :
    (isParamAdjust op = false → paramsOf (applyOp m op s) = paramsOf s) ∧
    (isTextMutating op = false →
      (applyOp m op s).topText = s.topText ∧
      (applyOp m op s).bottomText = s.bottomText) ∧
    (clear_canvas s).topText = "" ∧ (clear_canvas s).bottomText = "" ∧
    paramsOf (clear_canvas s) = paramsOf s := by
  refine ⟨fun hp => ?_, fun ht => ?_, rfl, rfl, rfl⟩
  · cases op with
    | loadImage fn r => exact (load_image_frame m s fn r).1
    | randomGacha fileSys d l i j => exact (random_gacha_frame m fileSys s d l i j).1
    | clearCanvas => rfl
    | saveImage => rfl
    | shareToX c => exact congrArg paramsOf (share_to_x_state s c)
    | updateFontSize v => exact Bool.noConfusion hp
    | updatePadding v => exact Bool.noConfusion hp
    | updateTopLeftMargin v => exact Bool.noConfusion hp
    | updateBottomPadding v => exact Bool.noConfusion hp
    | editTopText t => exact (update_canvas_frame m _).2.2.1
    | editBottomText t => exact (update_canvas_frame m _).2.2.1
  · cases op with
    | loadImage fn r =>
      exact ⟨(load_image_frame m s fn r).2.1, (load_image_frame m s fn r).2.2.1⟩
    | randomGacha fileSys d l i j => exact Bool.noConfusion ht
    | clearCanvas => exact Bool.noConfusion ht
    | saveImage => exact ⟨rfl, rfl⟩
    | shareToX c =>
      exact ⟨congrArg AppState.topText (share_to_x_state s c),
             congrArg AppState.bottomText (share_to_x_state s c)⟩
    | updateFontSize v => exact (slider_texts_frame m v s).1
    | updatePadding v => exact (slider_texts_frame m v s).2.1
    | updateTopLeftMargin v => exact (slider_texts_frame m v s).2.2.1
    | updateBottomPadding v => exact (slider_texts_frame m v s).2.2.2
    | editTopText t => exact Bool.noConfusion ht
    | editBottomText t => exact Bool.noConfusion ht

/-- Witness for C9's amended claim: saving leaves parameters and text
untouched, and clearing the adjusted state empties the text fields while
keeping the adjusted parameters. -/
theorem params_and_text_frame_witness :
    (paramsOf (applyOp flatMetrics Op.saveImage adjustedState) = paramsOf adjustedState) ∧
    ((applyOp flatMetrics Op.saveImage adjustedState).topText = adjustedState.topText ∧
     (applyOp flatMetrics Op.saveImage adjustedState).bottomText = adjustedState.bottomText) ∧
    (clear_canvas adjustedState).topText = "" ∧
    (clear_canvas adjustedState).bottomText = "" ∧
    paramsOf (clear_canvas adjustedState) = paramsOf adjustedState :=
  ⟨(params_and_text_frame flatMetrics Op.saveImage adjustedState).1 rfl,
   (params_and_text_frame flatMetrics Op.saveImage adjustedState).2.1 rfl,
   (params_and_text_frame flatMetrics Op.saveImage adjustedState).2.2⟩

/-- Every event handler preserves the invariant that the retained original
image carries no overlay operations: it is only ever replaced by a freshly
opened file or dropped, never by a rendered composite. -/
theorem applyOp_pristine (m : FontMetrics) (op : Op) (s : AppState)
    (h : pristineOriginal s) : pristineOriginal (applyOp m op s) := by
  cases op with
  | loadImage fn r =>
    cases fn with
    | none => exact h
    | some name =>
      cases r with
      | some wh =>
        obtain ⟨w, hh⟩ := wh
        show pristineOriginal (update_canvas m
          { s with image := some (openedImage w hh),
                   original_image := some (openedImage w hh) })
        intro o ho
        rw [(update_canvas_frame m _).2.2.2.1] at ho
        obtain rfl := Option.some.inj ho
        rfl
      | none =>
        intro o ho
        exact Option.noConfusion ho
  | randomGacha fileSys d l i j =>
    show pristineOriginal (random_gacha m fileSys s d l i j).1
    unfold random_gacha
    split
    · exact h
    · dsimp only
      split <;> try split
      all_goals
        first
        | exact h
        | (intro o ho
           rw [(update_canvas_frame m _).2.2.2.1] at ho
           obtain rfl := Option.some.inj ho
           rfl)
        | (intro o ho; exact Option.noConfusion ho)
  | clearCanvas =>
    intro o ho
    exact Option.noConfusion ho
  | saveImage => exact h
  | shareToX c =>
    show pristineOriginal (share_to_x s c).1
    rw [share_to_x_state]
    exact h
  | updateFontSize v =>
    show pristineOriginal (update_font_size m v s)
    unfold update_font_size
    dsimp only
    split
    · intro o ho
      rw [(update_canvas_frame m _).2.2.2.1] at ho
      exact h o ho
    · intro o ho
      exact h o ho
  | updatePadding v =>
    show pristineOriginal (update_padding m v s)
    unfold update_padding
    dsimp only
    split
    · intro o ho
      rw [(update_canvas_frame m _).2.2.2.1] at ho
      exact h o ho
    · intro o ho
      exact h o ho
  | updateTopLeftMargin v =>
    show pristineOriginal (update_top_left_margin m v s)
    unfold update_top_left_margin
    dsimp only
    split
    · intro o ho
      rw [(update_canvas_frame m _).2.2.2.1] at ho
      exact h o ho
    · intro o ho
      exact h o ho
  | updateBottomPadding v =>
    show pristineOriginal (update_bottom_padding m v s)
    unfold update_bottom_padding
    dsimp only
    split
    · intro o ho
      rw [(update_canvas_frame m _).2.2.2.1] at ho
      exact h o ho
    · intro o ho
      exact h o ho
  | editTopText t =>
    show pristineOriginal (update_canvas m { s with topText := t })
    intro o ho
    rw [(update_canvas_frame m _).2.2.2.1] at ho
    exact h o ho
  | editBottomText t =>
    show pristineOriginal (update_canvas m { s with bottomText := t })
    intro o ho
    rw [(update_canvas_frame m _).2.2.2.1] at ho
    exact h o ho

/-- In every state reachable from startup the retained original image is
pristine. -/
theorem reachable_pristine (f : Option (List (List String))) (s : AppState)
    (hs : Reachable f s) : pristineOriginal s := by
  induction hs with
  | start => intro o ho; exact Option.noConfusion ho
  | next m op t ht ih => exact applyOp_pristine m op t ih

/-- C2: in any reachable state with a current and an original image, a
render starts from the pristine original (no overlay operations), the
result is the pure `render` of `(original, captions, parameters)`, the
original reference is left untouched, and re-rendering is idempotent —
text and stroke artifacts never compound even though the rendered result
is reassigned as the new current image. -/
theorem render_from_pristine (f : Option (List (List String)))
    (m : FontMetrics) (s : AppState) (hs : Reachable f s) (i o : PILImage)
    (hi : s.image = some i) (ho : s.original_image = some o) :
    o.ops = [] ∧
    (update_canvas m s).image =
      some (render m o s.topText s.bottomText (paramsOf s)) ∧
    (update_canvas m s).original_image = some o ∧
    (update_canvas m (update_canvas m s)).image = (update_canvas m s).image := by
  have hpr := reachable_pristine f s hs o ho
  have hu : update_canvas m s =
      { s with image := some (render m o s.topText s.bottomText (paramsOf s)) } := by
    unfold update_canvas
    rw [hi, ho]
  refine ⟨hpr, by rw [hu], ?_, ?_⟩
  · rw [hu]
    exact ho
  · rw [hu]
    unfold update_canvas
    dsimp only
    rw [ho]
    rfl

/-- Witness for C2: the startup state after one successful load of a 4x3
image. -/
theorem render_from_pristine_witness :
    (openedImage 4 3).ops = [] ∧
    (update_canvas flatMetrics loadState).image =
      some (render flatMetrics (openedImage 4 3) loadState.topText
        loadState.bottomText (paramsOf loadState)) ∧
    (update_canvas flatMetrics loadState).original_image = some (openedImage 4 3) ∧
    (update_canvas flatMetrics (update_canvas flatMetrics loadState)).image =
      (update_canvas flatMetrics loadState).image :=
  render_from_pristine none flatMetrics loadState
    (Reachable.next flatMetrics (Op.loadImage (some "a.png") (some (4, 3)))
      (initState none) Reachable.start)
    (openedImage 4 3) (openedImage 4 3) rfl rfl

/-- C3: rendering is deterministic in `(original, top, bottom, params)` —
two sessions agreeing on those, whatever their current images, produce
equal composites. -/
theorem render_deterministic (m : FontMetrics) (s1 s2 : AppState)
    (ho : s1.original_image = s2.original_image)
    (ht : s1.topText = s2.topText) (hb : s1.bottomText = s2.bottomText)
    (hp : paramsOf s1 = paramsOf s2)
    (h1 : s1.image.isSome) (h2 : s2.image.isSome)
    (h3 : s1.original_image.isSome) :
    (update_canvas m s1).image = (update_canvas m s2).image := by
  obtain ⟨i1, hi1⟩ := Option.isSome_iff_exists.mp h1
  obtain ⟨i2, hi2⟩ := Option.isSome_iff_exists.mp h2
  obtain ⟨o, ho1⟩ := Option.isSome_iff_exists.mp h3
  have ho2 : s2.original_image = some o := ho ▸ ho1
  unfold update_canvas
  rw [hi1, hi2, ho1, ho2, ht, hb, hp]

/-- Witness for C3: two states sharing base, text and parameters but with
different current images render the same composite. -/
theorem render_deterministic_witness :
    (update_canvas flatMetrics compositedState).image =
      (update_canvas flatMetrics recompositedState).image :=
  render_deterministic flatMetrics compositedState recompositedState
    rfl rfl rfl rfl rfl rfl rfl

/-- C6: random selection over a missing images directory, or over a
listing with no `.jpg`/`.png` files (case-sensitive), reports a warning and
changes no session state; on success it opens the file picked by the draw
over the matching files and takes the caption picked by the separate,
independent draw over the catalog. -/
theorem random_gacha_selection (m : FontMetrics)
    (fileSys : String → Option (Nat × Nat)) (s : AppState)
    (listing : List String) (i j : Nat) :
    random_gacha m fileSys s false listing i j = (s, true) ∧
    (listing.filter matchExt = [] →
      random_gacha m fileSys s true listing i j = (s, true)) ∧
    (∀ w h : Nat, listing.filter matchExt ≠ [] →
      fileSys (selectedFile listing i) = some (w, h) →
      (random_gacha m fileSys s true listing i j).1.original_image =
        some (openedImage w h) ∧
      (random_gacha m fileSys s true listing i j).1.topText =
        s.captions.getD (j % s.captions.length) "" ∧
      (random_gacha m fileSys s true listing i j).1.bottomText = "" ∧
      (random_gacha m fileSys s true listing i j).2 = false) := by
  refine ⟨rfl, fun hemp => ?_, fun w h hne hopen => ?_⟩
  · unfold random_gacha
    split
    · rfl
    · dsimp only
      rw [if_pos hemp]
  · have hr : random_gacha m fileSys s true listing i j =
        (update_canvas m
          { s with image := some (openedImage w h),
                   original_image := some (openedImage w h),
                   topText := s.captions.getD (j % s.captions.length) "",
                   bottomText := "" }, false) := by
      unfold random_gacha
      split
      · rename_i hcon
        exact absurd hcon (by decide)
      · dsimp only
        rw [if_neg hne, hopen]
    rw [hr]
    exact ⟨(update_canvas_frame m _).2.2.2.1, (update_canvas_frame m _).1,
           (update_canvas_frame m _).2.1, rfl⟩

/-- Witness for C6: over the listing `["cat.png", "notes.txt", "dog.JPG"]`
the success path opens the matching file and picks caption 1 of the
fallback catalog, while a listing holding only `"dog.JPG"` (wrong case) is
treated as empty and changes nothing. -/
theorem random_gacha_selection_witness :
    ((random_gacha flatMetrics (fun _ => some (4, 3)) (initState none) true
        ["cat.png", "notes.txt", "dog.JPG"] 0 1).1.original_image =
      some (openedImage 4 3) ∧
     (random_gacha flatMetrics (fun _ => some (4, 3)) (initState none) true
        ["cat.png", "notes.txt", "dog.JPG"] 0 1).1.topText =
      (initState none).captions.getD (1 % (initState none).captions.length) "" ∧
     (random_gacha flatMetrics (fun _ => some (4, 3)) (initState none) true
        ["cat.png", "notes.txt", "dog.JPG"] 0 1).1.bottomText = "" ∧
     (random_gacha flatMetrics (fun _ => some (4, 3)) (initState none) true
        ["cat.png", "notes.txt", "dog.JPG"] 0 1).2 = false) ∧
    random_gacha flatMetrics (fun _ => some (4, 3)) (initState none) true
      ["dog.JPG"] 0 1 = (initState none, true) :=
  ⟨(random_gacha_selection flatMetrics (fun _ => some (4, 3)) (initState none)
      ["cat.png", "notes.txt", "dog.JPG"] 0 1).2.2 4 3 (by decide) rfl,
   (random_gacha_selection flatMetrics (fun _ => some (4, 3)) (initState none)
      ["dog.JPG"] 0 1).2.1 (by decide)⟩

/-- C10: every successful random selection sets the top caption box to the
drawn catalog caption and empties the bottom caption box, whatever text
the user had entered. -/
theorem gacha_overwrites_captions (m : FontMetrics)
    (fileSys : String → Option (Nat × Nat)) (s : AppState)
    (listing : List String) (i j w h : Nat)
    (hne : listing.filter matchExt ≠ [])
    (hopen : fileSys (selectedFile listing i) = some (w, h)) :
    (random_gacha m fileSys s true listing i j).1.topText =
      s.captions.getD (j % s.captions.length) "" ∧
    (random_gacha m fileSys s true listing i j).1.bottomText = "" := by
  have hr : random_gacha m fileSys s true listing i j =
      (update_canvas m
        { s with image := some (openedImage w h),
                 original_image := some (openedImage w h),
                 topText := s.captions.getD (j % s.captions.length) "",
                 bottomText := "" }, false) := by
    unfold random_gacha
    split
    · rename_i hcon
      exact absurd hcon (by decide)
    · dsimp only
      rw [if_neg hne, hopen]
  rw [hr]
  exact ⟨(update_canvas_frame m _).1, (update_canvas_frame m _).2.1⟩

/-- Witness for C10: a gacha over a user-edited session overwrites the
entered captions with catalog caption 1 and an empty bottom text. -/
theorem gacha_overwrites_captions_witness :
    (random_gacha flatMetrics (fun _ => some (4, 3)) compositedState true
       ["cat.png"] 0 1).1.topText =
      compositedState.captions.getD (1 % compositedState.captions.length) "" ∧
    (random_gacha flatMetrics (fun _ => some (4, 3)) compositedState true
       ["cat.png"] 0 1).1.bottomText = "" :=
  gacha_overwrites_captions flatMetrics (fun _ => some (4, 3)) compositedState
    ["cat.png"] 0 1 4 3 (by decide) rfl

end MemeGen
